import Mathlib

/-!
A shallow embedding of the speech-to-text Telegram bot and its bundled
Watson VisualRecognitionV3 REST client, with the program's behaviour
verified against its natural-language description.

Conventions of the embedding:
* a JavaScript value that only matters through its shape and truthiness is
  modelled by the inductive JSVal;
* a thrown exception is modelled by Option.none on the result of the
  function that throws;
* a Node Buffer is a list of bytes, each taken modulo 256;
* a callback-based function is modelled by a pure function from the data
  the callbacks receive to the list of callback invocations it performs.
-/

/-- A JavaScript value, kept only as precisely as the embedded code needs:
the falsy values undefined, null, false, 0 and the empty string; Buffers
with their bytes; streams and plain objects as opaque truthy values; and
the object the vision client wraps a Buffer into, value plus optional
contentType. NaN and BigInt are not modelled. -/
inductive JSVal where
  | undefined
  | jsNull
  | boolean (b : Bool)
  | number (n : Int)
  | string (s : String)
  | buffer (bytes : List Nat)
  | stream
  | object
  | wrapped (value : List Nat) (contentType : Option String)
deriving DecidableEq

/-- JavaScript truthiness of a JSVal. -/
def JSVal.truthy : JSVal → Bool
  | .undefined => false
  | .jsNull => false
  | .boolean b => b
  | .number n => decide (n ≠ 0)
  | .string s => decide (s ≠ "")
  | .buffer _ => true
  | .stream => true
  | .object => true
  | .wrapped _ _ => true

/-- From src/unnamed/part_001 lines 63-65: the JS-style logical XOR over
truthiness, function xor(a, b) returning (a or b) and not (a and b). The
source names it xor; that name is taken in Lean. -/
def jsXor (a b : Bool) : Bool := (a || b) && !(a && b)

/-- Node Buffer.readUInt32BE with the default offset 0: the first four
bytes read big-endian; none models the RangeError thrown when the buffer
holds fewer than four bytes. -/
def readUInt32BE (bytes : List Nat) : Option Nat :=
  match bytes with
  | b0 :: b1 :: b2 :: b3 :: _ =>
      some (b0 % 256 * 0x1000000 + b1 % 256 * 0x10000 + b2 % 256 * 0x100 + b3 % 256)
  | _ => none

/-- From src/unnamed/part_001 lines 76-91: detectContentType switches on
buffer.readUInt32BE() and maps the magic-number signatures of zip, png and
jpeg files to a MIME type, returning undefined (here some none) for every
other signature; the outer none models the RangeError readUInt32BE throws
on a buffer shorter than four bytes, which propagates. -/
def detectContentType (buffer : List Nat) : Option (Option String) :=
  match readUInt32BE buffer with
  | none => none
  | some signature =>
      some (
        if signature = 0x504b0304 ∨ signature = 0x504b0506 ∨ signature = 0x504b0708 then
          some "application/zip"
        else if signature = 0x89504e47 then
          some "image/png"
        else if signature = 0xffd8ffe0 ∨ signature = 0xffd8ffe1 ∨ signature = 0xffd8ffe8 then
          some "image/jpeg"
        else
          none)

/-- The params object the vision client's classify, detectFaces and
recognizeText inspect: the three fields fixupImageParam reads. Fields the
code never reads are not modelled. -/
structure ImageParams where
  images_file : JSVal
  image_file : JSVal
  url : JSVal
deriving DecidableEq

/-- From src/unnamed/part_001 lines 101-103: when params.image_file is
truthy and params.images_file is not, images_file is set to image_file. -/
def aliasImageParam (p : ImageParams) : ImageParams :=
  if p.image_file.truthy && !p.images_file.truthy then
    { p with images_file := p.image_file }
  else p

/-- The images_file field after the image_file alias step. -/
def effectiveImagesFile (p : ImageParams) : JSVal :=
  (aliasImageParam p).images_file

/-- From src/unnamed/part_001 lines 105-116: after the alias step,
fixupImageParam throws unless exactly one of images_file and url is truthy
(none models the throw), and wraps a Buffer images_file into a
value/contentType object; the RangeError detectContentType raises on a
Buffer shorter than four bytes propagates as a throw too. -/
def fixupChecked (p : ImageParams) : Option ImageParams :=
  if !(jsXor p.images_file.truthy p.url.truthy) then none
  else
    match p.images_file with
    | .buffer bytes =>
        match detectContentType bytes with
        | none => none
        | some ct => some { p with images_file := .wrapped bytes ct }
    | _ => some p

/-- From src/unnamed/part_001 lines 100-117: fixupImageParam, the alias
step followed by the exactly-one check and the Buffer wrap; an absent
params throws at the check. none models a throw. -/
def fixupImageParam (params : Option ImageParams) : Option ImageParams :=
  match params with
  | none => none
  | some p0 => fixupChecked (aliasImageParam p0)

/-- Outcome of one call to classify, detectFaces or recognizeText: either
the callback receives an error and no network request is dispatched, or a
request is dispatched carrying the fixed-up params. -/
inductive VisionCall where
  | rejected
  | dispatched (p : ImageParams)
deriving DecidableEq

/-- From src/unnamed/part_001 lines 288-294: classify runs fixupImageParam
in a try/catch; a throw is delivered to the callback and the function
returns before any request is made; otherwise the request is dispatched.
The marshalling of the dispatched request body is not modelled. -/
def classify (params : Option ImageParams) : VisionCall :=
  match fixupImageParam params with
  | none => .rejected
  | some p => .dispatched p

/-- From src/unnamed/part_001 lines 384-390: detectFaces guards its request
with the same try/catch around fixupImageParam as classify. -/
def detectFaces (params : Option ImageParams) : VisionCall :=
  match fixupImageParam params with
  | none => .rejected
  | some p => .dispatched p

/-- From src/unnamed/part_001 lines 473-479: recognizeText guards its
request with the same try/catch around fixupImageParam as classify. -/
def recognizeText (params : Option ImageParams) : VisionCall :=
  match fixupImageParam params with
  | none => .rejected
  | some p => .dispatched p

/-- A Buffer value of fewer than four bytes: the one shape whose
content-type sniffing throws inside fixupImageParam. -/
def shortBuffer : JSVal → Bool
  | .buffer bytes => decide (bytes.length < 4)
  | _ => false

lemma readUInt32BE_eq_none_iff (bytes : List Nat) :
    readUInt32BE bytes = none ↔ bytes.length < 4 := by
  match bytes with
  | [] => simp [readUInt32BE]
  | [_] => simp [readUInt32BE]
  | [_, _] => simp [readUInt32BE]
  | [_, _, _] => simp [readUInt32BE]
  | _ :: _ :: _ :: _ :: rest => simp [readUInt32BE]

lemma detectContentType_eq_none_iff (bytes : List Nat) :
    detectContentType bytes = none ↔ bytes.length < 4 := by
  rw [← readUInt32BE_eq_none_iff]
  cases h : readUInt32BE bytes <;> simp [detectContentType, h]

lemma jsXor_eq_false_iff (a b : Bool) : jsXor a b = false ↔ a = b := by
  cases a <;> cases b <;> simp [jsXor]

lemma jsXor_eq_true_iff (a b : Bool) : jsXor a b = true ↔ ¬(a = b) := by
  cases a <;> cases b <;> simp [jsXor]

lemma aliasImageParam_url (p : ImageParams) : (aliasImageParam p).url = p.url := by
  unfold aliasImageParam
  split <;> rfl

lemma fixupChecked_eq_none_iff (q : ImageParams) :
    fixupChecked q = none ↔
      (q.images_file.truthy = q.url.truthy ∨ shortBuffer q.images_file = true) := by
  unfold fixupChecked
  by_cases hx : q.images_file.truthy = q.url.truthy
  · rw [if_pos (by simp [(jsXor_eq_false_iff _ _).mpr hx])]
    simp [hx]
  · rw [if_neg (by simp [(jsXor_eq_true_iff _ _).mpr hx])]
    cases him : q.images_file with
    | buffer bytes =>
        cases hdet : detectContentType bytes with
        | none =>
            have hlen : bytes.length < 4 := (detectContentType_eq_none_iff bytes).mp hdet
            simp [hdet, shortBuffer, hlen]
        | some ct =>
            have hlen : ¬ bytes.length < 4 := fun h =>
              by simpa [hdet] using (detectContentType_eq_none_iff bytes).mpr h
            rw [him] at hx
            simpa [hdet, shortBuffer, hlen] using hx
    | undefined => rw [him] at hx; simpa [shortBuffer] using hx
    | jsNull => rw [him] at hx; simpa [shortBuffer] using hx
    | boolean b => rw [him] at hx; simpa [shortBuffer] using hx
    | number n => rw [him] at hx; simpa [shortBuffer] using hx
    | string s => rw [him] at hx; simpa [shortBuffer] using hx
    | stream => rw [him] at hx; simpa [shortBuffer] using hx
    | object => rw [him] at hx; simpa [shortBuffer] using hx
    | wrapped v c => rw [him] at hx; simpa [shortBuffer] using hx

lemma fixupImageParam_eq_none_iff (params : Option ImageParams) :
    fixupImageParam params = none ↔
      (params = none ∨ ∃ p, params = some p ∧
        ((effectiveImagesFile p).truthy = p.url.truthy ∨
          shortBuffer (effectiveImagesFile p) = true)) := by
  cases params with
  | none => simp [fixupImageParam]
  | some p0 =>
      simp only [fixupImageParam, Option.some.injEq, reduceCtorEq, false_or,
        exists_eq_left']
      rw [fixupChecked_eq_none_iff, aliasImageParam_url]
      simp only [effectiveImagesFile]

/-- C1 (amended). A call to classify, detectFaces or recognizeText is
rejected with an error delivered to the callback, and no network request
dispatched, exactly when params is absent, or the effective images_file
(after the image_file alias) and url do not have exactly one truthy value
between them, or the effective images_file is a Buffer of fewer than four
bytes, whose content-type sniffing throws; the three methods treat any
params object identically. -/
theorem vision_reject_iff (params : Option ImageParams) :
    (classify params = VisionCall.rejected ↔
      (params = none ∨ ∃ p, params = some p ∧
        ((effectiveImagesFile p).truthy = p.url.truthy ∨
          shortBuffer (effectiveImagesFile p) = true))) ∧
    detectFaces params = classify params ∧
    recognizeText params = classify params := by
  refine ⟨?_, rfl, rfl⟩
  rw [← fixupImageParam_eq_none_iff]
  unfold classify
  cases h : fixupImageParam params <;> simp [h]

/-- C1 counterexample to the claim as stated: a params object carrying
exactly one of the two mutually exclusive fields (a truthy images_file,
namely a two-byte Buffer, with image_file and url both falsy) is still
rejected by classify. -/
theorem vision_reject_exactly_one_field_cex :
    classify (some { images_file := JSVal.buffer [1, 2],
                     image_file := JSVal.undefined,
                     url := JSVal.undefined }) = VisionCall.rejected ∧
    (JSVal.buffer [1, 2]).truthy = true ∧
    (JSVal.undefined).truthy = false := by
  decide

/-- C2. detectContentType maps the first four bytes of a buffer, read as a
big-endian 32-bit signature, to application/zip for the three zip
signatures, image/png for the png signature, image/jpeg for the three jpeg
signatures, and undefined for every other signature. -/
theorem detectContentType_signature_table (buffer : List Nat) (sig : Nat)
    (h : readUInt32BE buffer = some sig) :
    (detectContentType buffer = some (some "application/zip") ↔
      (sig = 0x504b0304 ∨ sig = 0x504b0506 ∨ sig = 0x504b0708)) ∧
    (detectContentType buffer = some (some "image/png") ↔ sig = 0x89504e47) ∧
    (detectContentType buffer = some (some "image/jpeg") ↔
      (sig = 0xffd8ffe0 ∨ sig = 0xffd8ffe1 ∨ sig = 0xffd8ffe8)) ∧
    (detectContentType buffer = some none ↔
      ¬(sig = 0x504b0304 ∨ sig = 0x504b0506 ∨ sig = 0x504b0708 ∨
        sig = 0x89504e47 ∨
        sig = 0xffd8ffe0 ∨ sig = 0xffd8ffe1 ∨ sig = 0xffd8ffe8)) := by
  unfold detectContentType
  rw [h]
  by_cases h1 : sig = 0x504b0304 ∨ sig = 0x504b0506 ∨ sig = 0x504b0708
  · rcases h1 with h1 | h1 | h1 <;> subst h1 <;> simp
  · by_cases h2 : sig = 0x89504e47
    · subst h2; simp
    · by_cases h3 : sig = 0xffd8ffe0 ∨ sig = 0xffd8ffe1 ∨ sig = 0xffd8ffe8
      · rcases h3 with h3 | h3 | h3 <;> subst h3 <;> simp
      · simp [h1, h2, h3]

/-- C2 witness: the buffer beginning with the png magic bytes is detected
as image/png. -/
theorem detectContentType_signature_table_witness :
    detectContentType [0x89, 0x50, 0x4e, 0x47] = some (some "image/png") :=
  (detectContentType_signature_table [0x89, 0x50, 0x4e, 0x47] 0x89504e47
    (by decide)).2.1.mpr rfl

/-- One alternative in a transcription result, src/unnamed/part_000 line
49: the transcript text the bot reads. -/
structure SpeechAlternative where
  transcript : String
deriving DecidableEq

/-- One result in the transcription response: its list of alternatives. -/
structure SpeechResult where
  alternatives : List SpeechAlternative
deriving DecidableEq

/-- The response object the transcription service passes to the recognize
callback: its list of results. -/
structure SpeechResponse where
  results : List SpeechResult
deriving DecidableEq

/-- An observable action of the voice-message handler. -/
inductive VoiceAction where
  | consoleLog (err : String)
  | reply (text : String)
deriving DecidableEq

/-- From src/unnamed/part_000 lines 45-50: the callback given to
speech_to_text.recognize. On a truthy err it logs the error to console;
otherwise it replies with res.results[0].alternatives[0].transcript. none
models the TypeError thrown when results or alternatives is empty, so
indexing with [0] yields undefined and the next property access throws. -/
def recognizeCallback (err : Option String) (res : SpeechResponse) :
    Option VoiceAction :=
  match err with
  | some e => some (.consoleLog e)
  | none =>
      match res.results with
      | [] => none
      | r :: _ =>
          match r.alternatives with
          | [] => none
          | a :: _ => some (.reply a.transcript)

/-- From src/unnamed/part_000 lines 34-36: the on-error handler of the
audio download has an empty body; it performs no action. -/
def downloadErrorHandler (_err : String) : List VoiceAction := []

/-- From src/unnamed/part_000 line 30: var local_file_path = file_id. -/
def local_file_path (file_id : String) : String := file_id

/-- From src/unnamed/part_000 lines 39 and 56: the path given to
fs.createWriteStream for the downloaded audio and to fs.createReadStream
when transcribing, file_id + the .ogg extension. -/
def audioWritePath (file_id : String) : String := file_id ++ ".ogg"

/-- From src/unnamed/part_000 line 53: the path given to fs.unlink after
the download, the bare local_file_path. -/
def unlinkPath (file_id : String) : String := local_file_path file_id

/-- C3. When the transcription call completes without an error and the
service response carries at least one result with at least one
alternative, the bot replies with the transcript of the first alternative
of the first result. -/
theorem recognize_success_replies_first_transcript
    (res : SpeechResponse) (r : SpeechResult) (a : SpeechAlternative)
    (rs : List SpeechResult) (al : List SpeechAlternative)
    (h1 : res.results = r :: rs) (h2 : r.alternatives = a :: al) :
    recognizeCallback none res = some (VoiceAction.reply a.transcript) := by
  simp [recognizeCallback, h1, h2]

/-- C3 witness: a canned one-result, one-alternative response produces a
reply with that transcript. -/
theorem recognize_success_replies_first_transcript_witness :
    recognizeCallback none ⟨[⟨[⟨"hola mundo"⟩]⟩]⟩ =
      some (VoiceAction.reply "hola mundo") :=
  recognize_success_replies_first_transcript
    ⟨[⟨[⟨"hola mundo"⟩]⟩]⟩ ⟨[⟨"hola mundo"⟩]⟩ ⟨"hola mundo"⟩ [] [] rfl rfl

/-- C4. A transcription error is logged to console and nothing else
happens: no reply is sent and no retry exists in the model; a reply can
only arise from the no-error branch; the download error handler performs
no action at all. -/
theorem recognize_error_logged_and_dropped (e : String)
    (res res2 : SpeechResponse) (err : Option String) (t : String) :
    recognizeCallback (some e) res = some (VoiceAction.consoleLog e) ∧
    downloadErrorHandler e = [] ∧
    (recognizeCallback err res2 = some (VoiceAction.reply t) → err = none) := by
  refine ⟨rfl, rfl, ?_⟩
  cases err with
  | none => intro _; rfl
  | some e2 =>
      intro h
      simp [recognizeCallback] at h

/-- C4 witness: a concrete error is logged, the download error handler
does nothing, and a concrete reply forces the no-error branch. -/
theorem recognize_error_logged_and_dropped_witness :
    recognizeCallback (some "socket hang up") ⟨[]⟩ =
      some (VoiceAction.consoleLog "socket hang up") ∧
    downloadErrorHandler "socket hang up" = [] ∧
    (recognizeCallback none ⟨[⟨[⟨"ok"⟩]⟩]⟩ = some (VoiceAction.reply "ok") →
      (none : Option String) = none) :=
  recognize_error_logged_and_dropped "socket hang up" ⟨[]⟩ ⟨[⟨[⟨"ok"⟩]⟩]⟩ none "ok"

/-- C5. The code evaluated at a concrete voice message: the audio is
written to file_id + .ogg but fs.unlink receives the bare file_id, so the
path deleted is not the path the downloaded audio was written to. -/
theorem unlink_misses_written_file :
    audioWritePath "file123" = "file123.ogg" ∧
    unlinkPath "file123" = "file123" ∧
    unlinkPath "file123" ≠ audioWritePath "file123" := by
  constructor
  · rfl
  · exact ⟨rfl, by decide⟩

/-- C6. Each local audio path is that message's file_id concatenated with
.ogg, and distinct file_id values give distinct local audio paths. -/
theorem audio_paths_distinct (f1 f2 : String) (h : f1 ≠ f2) :
    audioWritePath f1 = f1 ++ ".ogg" ∧ audioWritePath f1 ≠ audioWritePath f2 := by
  refine ⟨rfl, ?_⟩
  intro hcon
  apply h
  have hd : (f1 ++ ".ogg").data = (f2 ++ ".ogg").data := congrArg String.data hcon
  rw [String.data_append, String.data_append] at hd
  exact String.ext (List.append_cancel_right hd)

/-- C6 witness: two concrete distinct file ids give distinct paths. -/
theorem audio_paths_distinct_witness :
    audioWritePath "idA" = "idA" ++ ".ogg" ∧
    audioWritePath "idA" ≠ audioWritePath "idB" :=
  audio_paths_distinct "idA" "idB" (by decide)

/-- The combined outcome of fs.readFileSync plus yaml.safeLoad inside the
try block of src/lib/config.js: either the parsed document, or the
exception either call threw. The document type is abstract because the
code applies no schema validation to it. -/
inductive LoadOutcome (α : Type) where
  | success (doc : α)
  | failure (err : String)
deriving DecidableEq

/-- What module.exports.data returns: the parsed document unmodified, or a
plain string. -/
inductive ConfigValue (α : Type) where
  | doc (d : α)
  | str (s : String)
deriving DecidableEq

/-- From src/lib/config.js lines 4-14: module.exports.data. On success it
returns the parsed document; on any read or parse failure the catch block
logs the exception and returns the string error. The second component
collects the console.log lines. The function is total: it never throws. -/
def configData (outcome : LoadOutcome α) : ConfigValue α × List String :=
  match outcome with
  | .success d => (.doc d, [])
  | .failure e => (.str "error", [e])

/-- C7. Whenever reading and YAML parsing succeed, config data is the
parsed mapping returned unmodified with nothing logged, whatever the
mapping contains; on any read or parse failure nothing is thrown, the
exception is logged, and the string error is returned. -/
theorem configData_spec (α : Type) (outcome : LoadOutcome α) (d : α) (e : String) :
    (outcome = LoadOutcome.success d → configData outcome = (ConfigValue.doc d, [])) ∧
    (outcome = LoadOutcome.failure e →
      configData outcome = (ConfigValue.str "error", [e])) := by
  constructor
  · intro h; rw [h]; rfl
  · intro h; rw [h]; rfl

/-- C7 witness: a parsed mapping, here a single key-value list missing any
bot token, is returned unmodified, and a failing load returns the string
error and logs the exception. -/
theorem configData_spec_witness :
    configData (LoadOutcome.success [("SOME_KEY", "v")]) =
      (ConfigValue.doc [("SOME_KEY", "v")], []) ∧
    configData (LoadOutcome.failure "ENOENT" : LoadOutcome (List (String × String))) =
      (ConfigValue.str "error", ["ENOENT"]) :=
  ⟨(configData_spec (List (String × String))
      (LoadOutcome.success [("SOME_KEY", "v")]) [("SOME_KEY", "v")] "ENOENT").1 rfl,
   (configData_spec (List (String × String))
      (LoadOutcome.failure "ENOENT") [("SOME_KEY", "v")] "ENOENT").2 rfl⟩

/-- The two fields of a vision service result that errorFormatter reads;
a missing field is none. -/
structure ServiceResult where
  status : Option String
  statusInfo : Option String
deriving DecidableEq

/-- The first argument errorFormatter passes to the wrapped callback: the
transport error forwarded unchanged, the formatted error object with its
error and code fields, or null. -/
inductive VisionCallbackErr where
  | transport (e : String)
  | formatted (error : Option String) (code : Nat)
  | nullErr
deriving DecidableEq

/-- From src/unnamed/part_001 lines 126-147: the function errorFormatter
returns. Modelled as the list of invocations of the wrapped callback,
each an argument pair. A transport err is forwarded with the result; with
no transport err, a result of status ERROR fires the callback only for
statusInfo invalid-api-key (an error object built with the statusInfo and
the code the ternary on line 137 picks), and any other result is passed
through with a null error. -/
def errorFormatter (err : Option String) (result : ServiceResult) :
    List (VisionCallbackErr × Option ServiceResult) :=
  match err with
  | some e => [(.transport e, some result)]
  | none =>
      if result.status = some "ERROR" then
        if result.statusInfo = some "invalid-api-key" then
          [(.formatted result.statusInfo
              (if result.statusInfo = some "invalid-api-key" then 401 else 400),
            none)]
        else []
      else [(.nullErr, some result)]

/-- C8. The wrapped callback fires for a transport error (forwarded with
the result), for an ERROR result with statusInfo invalid-api-key (an error
object with code 401 and a null result), and for a non-ERROR result passed
through unchanged with a null error; an ERROR result with any other
statusInfo is silently swallowed, the callback never firing. -/
theorem errorFormatter_spec (e : String) (r : ServiceResult) :
    errorFormatter (some e) r = [(VisionCallbackErr.transport e, some r)] ∧
    (r.status = some "ERROR" → r.statusInfo ≠ some "invalid-api-key" →
      errorFormatter none r = []) ∧
    (r.status = some "ERROR" → r.statusInfo = some "invalid-api-key" →
      errorFormatter none r =
        [(VisionCallbackErr.formatted (some "invalid-api-key") 401, none)]) ∧
    (r.status ≠ some "ERROR" →
      errorFormatter none r = [(VisionCallbackErr.nullErr, some r)]) := by
  refine ⟨rfl, ?_, ?_, ?_⟩
  · intro hs hi
    simp [errorFormatter, hs, hi]
  · intro hs hi
    simp [errorFormatter, hs, hi]
  · intro hs
    simp [errorFormatter, hs]

/-- C8 witness: concrete results exercising the swallowed case, the
transport case, the invalid-api-key case and the pass-through case. -/
theorem errorFormatter_spec_witness :
    errorFormatter none ⟨some "ERROR", some "daily-transaction-limit-exceeded"⟩ = [] ∧
    errorFormatter (some "ECONNRESET") ⟨none, none⟩ =
      [(VisionCallbackErr.transport "ECONNRESET", some ⟨none, none⟩)] ∧
    errorFormatter none ⟨some "ERROR", some "invalid-api-key"⟩ =
      [(VisionCallbackErr.formatted (some "invalid-api-key") 401, none)] ∧
    errorFormatter none ⟨some "OK", none⟩ =
      [(VisionCallbackErr.nullErr, some ⟨some "OK", none⟩)] :=
  ⟨(errorFormatter_spec "ECONNRESET"
      ⟨some "ERROR", some "daily-transaction-limit-exceeded"⟩).2.1 rfl (by decide),
   (errorFormatter_spec "ECONNRESET" ⟨none, none⟩).1,
   (errorFormatter_spec "ECONNRESET" ⟨some "ERROR", some "invalid-api-key"⟩).2.2.1 rfl rfl,
   (errorFormatter_spec "ECONNRESET" ⟨some "OK", none⟩).2.2.2 (by decide)⟩

/-- The response object phin passes to the getJSON handler: its body text
and status code. -/
structure HttpResponse where
  body : String
  statusCode : Nat
deriving DecidableEq

/-- One invocation of the getJSON callback: the forwarded transport error,
one of the two string messages, or the parsed body with a null error. -/
inductive JSONCallbackArg (β : Type) where
  | transportError (e : String)
  | message (s : String)
  | success (v : β)
deriving DecidableEq

/-- From src/unnamed/part_001 lines 5-27: the handler getJSON installs on
the phin response, as the list of callback invocations it performs.
JSON.parse is abstracted into the parse argument, its exception text on
the error side. The body is parsed inside try/catch before the status
code is inspected. -/
def getJSON (parse : String → Except String β)
    (outcome : Except String HttpResponse) : List (JSONCallbackArg β) :=
  match outcome with
  | .error e => [.transportError e]
  | .ok response =>
      match parse response.body with
      | .error parseError => [.message ("Parse error: " ++ parseError)]
      | .ok body =>
          if response.statusCode ≠ 200 then [.message "Unexpected response code."]
          else [.success body]

/-- C9. getJSON invokes its callback exactly once per response: a
transport error is forwarded; a body that fails to parse yields the Parse
error message whatever the status code is, the parse running before the
status check; a parsed body with a status other than 200 yields the
Unexpected response code message; and a parsed body with status 200 is
delivered with a null error. -/
theorem getJSON_spec (β : Type) (parse : String → Except String β)
    (outcome : Except String HttpResponse) (e pe : String)
    (resp : HttpResponse) (v : β) :
    (getJSON parse outcome).length = 1 ∧
    (outcome = Except.error e → getJSON parse outcome = [.transportError e]) ∧
    (outcome = Except.ok resp → parse resp.body = Except.error pe →
      getJSON parse outcome = [.message ("Parse error: " ++ pe)]) ∧
    (outcome = Except.ok resp → parse resp.body = Except.ok v →
      resp.statusCode ≠ 200 →
      getJSON parse outcome = [.message "Unexpected response code."]) ∧
    (outcome = Except.ok resp → parse resp.body = Except.ok v →
      resp.statusCode = 200 → getJSON parse outcome = [.success v]) := by
  refine ⟨?_, ?_, ?_, ?_, ?_⟩
  · cases outcome with
    | error e2 => rfl
    | ok resp2 =>
        cases hp : parse resp2.body with
        | error pe2 => simp [getJSON, hp]
        | ok v2 =>
            by_cases hs : resp2.statusCode = 200 <;> simp [getJSON, hp, hs]
  · intro h; rw [h]; rfl
  · intro h hp; rw [h]; simp [getJSON, hp]
  · intro h hp hs; rw [h]; simp [getJSON, hp, hs]
  · intro h hp hs; rw [h]; simp [getJSON, hp, hs]

/-- C9 witness: a body that is not valid JSON yields the Parse error
message even though the status code is 500, and a parsed body with status
200 is delivered. -/
theorem getJSON_spec_witness :
    getJSON (fun s => if s = "42" then Except.ok 42 else Except.error "bad token")
      (Except.ok ⟨"oops", 500⟩) = [.message ("Parse error: " ++ "bad token")] ∧
    getJSON (fun s => if s = "42" then Except.ok 42 else Except.error "bad token")
      (Except.ok ⟨"42", 200⟩) = [.success 42] :=
  ⟨((getJSON_spec Nat (fun s => if s = "42" then Except.ok 42 else Except.error "bad token")
      (Except.ok ⟨"oops", 500⟩) "e" "bad token" ⟨"oops", 500⟩ 42).2.2.1 rfl rfl),
   ((getJSON_spec Nat (fun s => if s = "42" then Except.ok 42 else Except.error "bad token")
      (Except.ok ⟨"42", 200⟩) "e" "bad token" ⟨"42", 200⟩ 42).2.2.2.2 rfl rfl rfl)⟩

/-- From src/unnamed/part_001 line 53: the constant NEGATIVE_EXAMPLES. -/
def NEGATIVE_EXAMPLES : String := "negative_examples"

/-- A character the ECMAScript dot matches: any character other than the
four line terminators LF (U+000A), CR (U+000D), LS (U+2028) and
PS (U+2029). -/
def jsRegexDotMatches (c : Char) : Bool :=
  c != '\n' && c != '\r' && c != '\u2028' && c != '\u2029'

/-- The regular expression on src/unnamed/part_001 line 560 matched
against a key: at least one character, each one the dot matches (so none
of the four line terminators), followed by the literal suffix
_positive_examples at the end of the key. A match decomposes the key at
the unique split the end anchor allows: the last eighteen characters are
the suffix and everything before them is the dot-plus part. -/
def matchesPositiveExamplesRe (key : String) : Bool :=
  let suffix := "_positive_examples".data
  let n := key.data.length - suffix.length
  decide (0 < n) &&
  decide (key.data.drop n = suffix) &&
  (key.data.take n).all jsRegexDotMatches

/-- The object.pick helper: the own properties of params whose key is
listed in keys. params models a JS object, so its key list carries no
duplicate keys. -/
def pick (params : List (String × α)) (keys : List String) : List (String × α) :=
  params.filter (fun kv => keys.contains kv.1)

/-- The message of the error createClassifier delivers when too few
example keys are present, src/unnamed/part_001 line 564. -/
def missingExamplesMsg : String :=
  "Missing required parameters: either two *_positive_examples or one *_positive_examples and one negative_examples must be provided."

/-- Outcome of one createClassifier call: an error delivered to the
callback with no request dispatched, or a request dispatched with the
given form data. -/
inductive ClassifierCall (α : Type) where
  | errCall (message : String)
  | dispatch (formData : List (String × α))

/-- From src/unnamed/part_001 lines 556-581: createClassifier defaults a
falsy params to the empty object, collects the keys that are
NEGATIVE_EXAMPLES or match the positive-examples pattern, delivers an
error and returns when fewer than two such keys exist, and otherwise
dispatches the request whose form data picks name, NEGATIVE_EXAMPLES and
the example keys from params. -/
def createClassifier (params0 : Option (List (String × α))) : ClassifierCall α :=
  let params := params0.getD []
  let example_keys := (params.map Prod.fst).filter
    (fun key => decide (key = NEGATIVE_EXAMPLES) || matchesPositiveExamplesRe key)
  if example_keys.length < 2 then .errCall missingExamplesMsg
  else .dispatch (pick params (["name", NEGATIVE_EXAMPLES] ++ example_keys))

/-- C10. createClassifier delivers an error and dispatches nothing
exactly when params (absent params included) holds fewer than two keys
that are negative_examples or match the positive-examples pattern; when a
request is dispatched, its form data holds exactly the params entries
whose key is name, negative_examples or a positive-examples match. -/
theorem createClassifier_spec (α : Type) (params : List (String × α))
    (fd : List (String × α)) (k : String) :
    (createClassifier (none : Option (List (String × α))) =
      ClassifierCall.errCall missingExamplesMsg) ∧
    (createClassifier (some params) = ClassifierCall.errCall missingExamplesMsg ↔
      ((params.map Prod.fst).filter
        (fun key => decide (key = "negative_examples") ||
          matchesPositiveExamplesRe key)).length < 2) ∧
    (createClassifier (some params) = ClassifierCall.dispatch fd →
      ((∃ v, (k, v) ∈ fd) ↔
        ((∃ v, (k, v) ∈ params) ∧
          (k = "name" ∨ k = "negative_examples" ∨
            matchesPositiveExamplesRe k = true)))) := by
  refine ⟨rfl, ?_, ?_⟩
  · by_cases h : ((params.map Prod.fst).filter
        (fun key => decide (key = NEGATIVE_EXAMPLES) ||
          matchesPositiveExamplesRe key)).length < 2
    · unfold createClassifier
      simp only [Option.getD_some]
      rw [if_pos h]
      simp only [NEGATIVE_EXAMPLES] at h
      exact iff_of_true rfl h
    · unfold createClassifier
      simp only [Option.getD_some]
      rw [if_neg h]
      simp only [NEGATIVE_EXAMPLES] at h
      exact iff_of_false (by simp) h
  · intro hd
    have hfd : fd = pick params (["name", NEGATIVE_EXAMPLES] ++
        ((params.map Prod.fst).filter
          (fun key => decide (key = NEGATIVE_EXAMPLES) ||
            matchesPositiveExamplesRe key))) := by
      unfold createClassifier at hd
      simp only [Option.getD_some] at hd
      by_cases h : ((params.map Prod.fst).filter
          (fun key => decide (key = NEGATIVE_EXAMPLES) ||
            matchesPositiveExamplesRe key)).length < 2
      · rw [if_pos h] at hd
        exact absurd hd (by simp)
      · rw [if_neg h] at hd
        exact (ClassifierCall.dispatch.inj hd).symm
    subst hfd
    unfold pick
    constructor
    · rintro ⟨v, hv⟩
      rw [List.mem_filter] at hv
      refine ⟨⟨v, hv.1⟩, ?_⟩
      have hc : k ∈ ["name", NEGATIVE_EXAMPLES] ++
          ((params.map Prod.fst).filter
            (fun key => decide (key = NEGATIVE_EXAMPLES) ||
              matchesPositiveExamplesRe key)) := List.elem_iff.mp hv.2
      rw [List.mem_append] at hc
      rcases hc with hc | hc
      · simp only [List.mem_cons, List.mem_singleton] at hc
        rcases hc with hc | hc
        · exact Or.inl hc
        · exact Or.inr (Or.inl (by simpa [NEGATIVE_EXAMPLES] using hc))
      · rw [List.mem_filter] at hc
        have := hc.2
        simp only [Bool.or_eq_true, decide_eq_true_eq, NEGATIVE_EXAMPLES] at this
        rcases this with hne | hm
        · exact Or.inr (Or.inl hne)
        · exact Or.inr (Or.inr hm)
    · rintro ⟨⟨v, hv⟩, hk⟩
      refine ⟨v, ?_⟩
      rw [List.mem_filter]
      refine ⟨hv, List.elem_iff.mpr ?_⟩
      rw [List.mem_append]
      rcases hk with hk | hk | hk
      · exact Or.inl (by simp [hk])
      · exact Or.inl (by simp [hk, NEGATIVE_EXAMPLES])
      · refine Or.inr ?_
        rw [List.mem_filter]
        refine ⟨?_, by simp [hk]⟩
        rw [List.mem_map]
        exact ⟨(k, v), hv, rfl⟩
